import Mathlib

/-!
Shallow embedding of `src/index.ts` of cdk-cross-account-plugin.

The TypeScript code is effectful (file system, durable key-value cache,
interactive MFA prompt, network).  We embed it by passing the world
explicitly: an `Env` record carries the clock, the durable credential
cache, the named-profile store, the SSO token-cache directory contents,
and the two external collaborators (the SSO `getRoleCredentials` network
call and the `SharedIniFileCredentials` acquisition, which internally
covers the MFA prompt).  `resolveWithProfile` becomes a pure function
from `Env` to an `Outcome`: the returned/raised value, the cache after
the call, and flags recording which collaborators were touched.

Timestamps are modelled as integers (epoch milliseconds, the value of
`Date.getTime()`); ISO-8601 serialisation round-trips through `Date`
and is modelled as the identity.  JavaScript string-truthiness
(`if (x)` on a possibly-undefined string) is `strTruthy`.  Profile
names are opaque keys of the cache map; the `dot-prop` path syntax for
names containing `.` is not modelled.
-/

deriving instance DecidableEq for Except

namespace CrossAccountPlugin

/-- The `Credentials` value returned to the CDK: the three fields the
code passes to `new Credentials({...})`.  Each field is `Option` because
a cached record read back from the durable store may lack a field. -/
structure Credentials where
  accessKeyId : Option String
  secretAccessKey : Option String
  sessionToken : Option String
deriving DecidableEq, Repr

/-- One record under `credentialCache.<profileName>` in the durable
plugin config.  Fields are `Option` because the code writes them with
four separate `pluginConfig.set` calls, so a record is in principle
observable with only some fields present. -/
structure CacheEntry where
  accessKeyId : Option String
  secretAccessKey : Option String
  sessionToken : Option String
  expireTime : Option Int
deriving DecidableEq, Repr

def emptyCacheEntry : CacheEntry :=
  { accessKeyId := none, secretAccessKey := none, sessionToken := none, expireTime := none }

/-- The durable credential cache, keyed by profile name. -/
def Cache := String → Option CacheEntry

/-- One `pluginConfig.set("credentialCache.<p>.<field>", v)` call:
`dot-prop` creates the intermediate record when absent, then updates the
single field. -/
def cacheSetField (c : Cache) (p : String) (f : CacheEntry → CacheEntry) : Cache :=
  fun q => if q = p then some (f ((c p).getD emptyCacheEntry)) else c q

/-- Attributes of a named AWS config profile, as read by `IniLoader`.
Only the fields the plugin touches are modelled; each may be absent. -/
structure Profile where
  sso_start_url : Option String
  sso_region : Option String
  sso_role_name : Option String
deriving DecidableEq, Repr

/-- JavaScript truthiness of a possibly-undefined string:
`undefined` and `""` are falsy, every other string is truthy. -/
def strTruthy : Option String → Bool
  | none => false
  | some s => !(s = "")

/-- A parsed SSO token-cache file (`~/.aws/sso/cache/*.json`).
`expiresAt` is the parsed expiry instant (the code parses
`expiresAt.replace('UTC', '+00:00')` with `new Date`); string fields are
`Option` because a JSON file may lack them. -/
structure SsoToken where
  startUrl : Option String
  region : Option String
  accessToken : Option String
  expiresAt : Int
deriving DecidableEq, Repr

/-- The `roleCredentials` part of a successful SSO
`getRoleCredentials` response. -/
structure RoleCredentials where
  accessKeyId : Option String
  secretAccessKey : Option String
  sessionToken : Option String
deriving DecidableEq, Repr

/-- The outcome of a successful `SharedIniFileCredentials.getPromise()`:
the provider fields the plugin reads afterwards.  On success the
provider carries all four (the expiry comes from the STS role-assumption
response). -/
structure IniResult where
  accessKeyId : String
  secretAccessKey : String
  sessionToken : String
  expireTime : Int
deriving DecidableEq, Repr

/-- The distinguishable failure values of a resolution.  The code
raises `Error` objects; constructors here carry exactly the data the
corresponding message interpolates. -/
inductive ResolveError where
  | profileNotFound (profileName : String)
  | ssoCacheMissing
  | ssoNotLoggedIn (startUrl : String)
  | ssoExchange (msg : String)
  | iniAcquisition (msg : String)
deriving DecidableEq, Repr

/-- The `Error` message text each failure is raised with. -/
def ResolveError.message : ResolveError → String
  | .profileNotFound p => "Unable to find AWS named config profile " ++ p
  | .ssoCacheMissing => "SSO cache directory not found - have you logged into AWS SSO first?"
  | .ssoNotLoggedIn url =>
      "SSO session for " ++ url ++ " is expired - have you logged into AWS SSO first?"
  | .ssoExchange m => m
  | .iniAcquisition m => m

/-- Which external collaborators a resolution touched.
`iniResolveInvoked` covers the `SharedIniFileCredentials` acquisition,
which is the only path that can reach the interactive MFA prompt. -/
structure Effects where
  profileStoreRead : Bool
  ssoNetworkCall : Bool
  iniResolveInvoked : Bool
deriving DecidableEq, Repr

def noEffects : Effects :=
  { profileStoreRead := false, ssoNetworkCall := false, iniResolveInvoked := false }

/-- The world a single `resolveWithProfile` call runs in. -/
structure Env where
  /-- `new Date().getTime()` at the cache-validity check. -/
  now : Int
  /-- `pluginConfig` content under `credentialCache`. -/
  cache : Cache
  /-- `IniLoader().loadFrom({isConfig: true})`: the named-profile store. -/
  profiles : String → Option Profile
  /-- `existsSync` on `~/.aws/sso/cache`. -/
  ssoCacheDirExists : Bool
  /-- The parsed `*.json` (non-`botocore*`) files of the SSO cache
  directory, in enumeration order. -/
  ssoTokenFiles : List SsoToken
  /-- The SSO `getRoleCredentials` network call of a client constructed
  for a region: region, roleName, accountId, accessToken ↦ response or
  rejection message. -/
  getRoleCredentials : Option String → Option String → String → Option String →
    Except String RoleCredentials
  /-- `SharedIniFileCredentials(...).getPromise()` for a profile name:
  resolved provider fields or rejection message. -/
  iniResolve : String → Except String IniResult

/-- Everything one `resolveWithProfile` call produces: the settled
promise, the cache as left behind, and the collaborator effects. -/
structure Outcome where
  result : Except ResolveError Credentials
  cache : Cache
  effects : Effects

/-- Validity test of a cached record: `now < new Date(expireTime).getTime()`.
A record without `expireTime` yields `NaN`, and `now < NaN` is false. -/
def cacheEntryValid (now : Int) (e : CacheEntry) : Bool :=
  match e.expireTime with
  | some exp => now < exp
  | none => false

/-- The `Credentials` built from a cached record (lines 102-106). -/
def credentialsOfEntry (e : CacheEntry) : Credentials :=
  { accessKeyId := e.accessKeyId, secretAccessKey := e.secretAccessKey,
    sessionToken := e.sessionToken }

/-- The predicate of the `.find(...)` over parsed token files
(lines 136-145): start URL and region equal the profile's (strict `===`,
where `undefined === undefined` holds), and `now` is strictly before the
token's expiry instant. -/
def tokenMatches (startUrl region : Option String) (now : Int) (t : SsoToken) : Bool :=
  t.startUrl == startUrl && t.region == region && decide (now < t.expiresAt)

/-- The SSO token locator of §4.4, as inlined in lines 125-150: fail if
the cache directory is missing, else take the first enumerated token
matching the profile's start URL and region with a future expiry, else
fail as not-logged-in.  `startUrlText` is the template-literal rendering
of `profile.sso_start_url` in the error message. -/
def findValidToken (dirExists : Bool) (files : List SsoToken)
    (startUrl region : Option String) (now : Int) (startUrlText : String) :
    Except ResolveError SsoToken :=
  if !dirExists then
    .error .ssoCacheMissing
  else
    match files.find? (tokenMatches startUrl region now) with
    | some t => .ok t
    | none => .error (.ssoNotLoggedIn startUrlText)

/-- The SSO branch (lines 123-172).  Note that on a successful exchange
the credentials are returned directly; nothing is written to the
credential cache in this branch. -/
def resolveSsoFlow (env : Env) (profile : Profile) (targetAccount : String) : Outcome :=
  match findValidToken env.ssoCacheDirExists env.ssoTokenFiles
      profile.sso_start_url profile.sso_region env.now
      (profile.sso_start_url.getD "undefined") with
  | .error e =>
      { result := .error e, cache := env.cache,
        effects := { profileStoreRead := true, ssoNetworkCall := false, iniResolveInvoked := false } }
  | .ok token =>
      match env.getRoleCredentials profile.sso_region profile.sso_role_name
          targetAccount token.accessToken with
      | .error msg =>
          { result := .error (.ssoExchange msg), cache := env.cache,
            effects := { profileStoreRead := true, ssoNetworkCall := true, iniResolveInvoked := false } }
      | .ok rc =>
          { result := .ok { accessKeyId := rc.accessKeyId,
                            secretAccessKey := rc.secretAccessKey,
                            sessionToken := rc.sessionToken },
            cache := env.cache,
            effects := { profileStoreRead := true, ssoNetworkCall := true, iniResolveInvoked := false } }

/-- The non-SSO branch (lines 176-198): run the shared-ini provider
(MFA prompt included), then on success store the four fields one
`pluginConfig.set` at a time and return the credentials. -/
def resolveIniFlow (env : Env) (profileName : String) : Outcome :=
  match env.iniResolve profileName with
  | .error msg =>
      { result := .error (.iniAcquisition msg), cache := env.cache,
        effects := { profileStoreRead := true, ssoNetworkCall := false, iniResolveInvoked := true } }
  | .ok r =>
      let c1 := cacheSetField env.cache profileName (fun e => { e with accessKeyId := some r.accessKeyId })
      let c2 := cacheSetField c1 profileName (fun e => { e with secretAccessKey := some r.secretAccessKey })
      let c3 := cacheSetField c2 profileName (fun e => { e with sessionToken := some r.sessionToken })
      let c4 := cacheSetField c3 profileName (fun e => { e with expireTime := some r.expireTime })
      { result := .ok { accessKeyId := some r.accessKeyId,
                        secretAccessKey := some r.secretAccessKey,
                        sessionToken := some r.sessionToken },
        cache := c4,
        effects := { profileStoreRead := true, ssoNetworkCall := false, iniResolveInvoked := true } }

/-- Lines 112-198: everything after the cache check — profile lookup,
SSO-vs-ini dispatch. -/
def resolveFull (env : Env) (profileName targetAccount : String) : Outcome :=
  match env.profiles profileName with
  | none =>
      { result := .error (.profileNotFound profileName), cache := env.cache,
        effects := { profileStoreRead := true, ssoNetworkCall := false, iniResolveInvoked := false } }
  | some profile =>
      if strTruthy profile.sso_start_url then
        resolveSsoFlow env profile targetAccount
      else
        resolveIniFlow env profileName

/-- `CrossAccountCredentialProvider.resolveWithProfile` (lines 89-199):
first the cache check, then (on miss or expiry) the full resolution. -/
def resolveWithProfile (env : Env) (profileName targetAccount : String) : Outcome :=
  match env.cache profileName with
  | some cached =>
      if cacheEntryValid env.now cached then
        { result := .ok (credentialsOfEntry cached), cache := env.cache, effects := noEffects }
      else
        resolveFull env profileName targetAccount
  | none => resolveFull env profileName targetAccount

/-- A `crossAccountConfig` entry for one account id; the only
recognized strategy field is `profile`. -/
structure StrategyConfig where
  profile : Option String
deriving DecidableEq, Repr

/-- What `getProvider` does with its promise: throw a `TypeError`
(member access on an undefined config), fall through without returning a
value, or run the profile resolution. -/
inductive GetProviderOutcome where
  | typeError
  | noValue
  | resolved (o : Outcome)

/-- `CrossAccountCredentialProvider.getProvider` (lines 78-87): look up
the account's strategy descriptor (a `TypeError` if the account has
none), dispatch on a truthy `profile` field, and otherwise fall off the
end of the function returning nothing. -/
def getProvider (env : Env) (crossAccountConfig : String → Option StrategyConfig)
    (accountId : String) : GetProviderOutcome :=
  match crossAccountConfig accountId with
  | none => .typeError
  | some config =>
      if strTruthy config.profile then
        .resolved (resolveWithProfile env (config.profile.getD "") accountId)
      else
        .noValue

/-! Concrete data used to exercise the model on closed inputs. -/

/-- A cached record with all four fields present, expiring at instant 1000. -/
def entryFresh : CacheEntry :=
  { accessKeyId := some "AKIACACHED", secretAccessKey := some "SECRETCACHED",
    sessionToken := some "TOKENCACHED", expireTime := some 1000 }

/-- An SSO token for start URL X / region R that is already expired at instant 100. -/
def tokA : SsoToken :=
  { startUrl := some "https://x.awsapps.com/start", region := some "us-east-1",
    accessToken := some "tokenA", expiresAt := 50 }

/-- An SSO token for start URL X / region R with a future expiry at instant 100. -/
def tokB : SsoToken :=
  { startUrl := some "https://x.awsapps.com/start", region := some "us-east-1",
    accessToken := some "tokenB", expiresAt := 5000 }

/-- An SSO token for a different start URL Y with a future expiry. -/
def tokC : SsoToken :=
  { startUrl := some "https://y.awsapps.com/start", region := some "us-east-1",
    accessToken := some "tokenC", expiresAt := 5000 }

/-- An environment with nothing configured: empty cache, no profiles,
no SSO cache directory, collaborators that always fail. -/
def envBase : Env :=
  { now := 100
  , cache := fun _ => none
  , profiles := fun _ => none
  , ssoCacheDirExists := false
  , ssoTokenFiles := []
  , getRoleCredentials := fun _ _ _ _ => .error "network unavailable"
  , iniResolve := fun _ => .error "credential acquisition failed" }

/-- An environment whose cache holds a valid record for profile `dev`. -/
def envCached : Env :=
  { envBase with cache := fun p => if p = "dev" then some entryFresh else none }

/-- The SSO profile used by the concrete SSO environment. -/
def ssoProfile : Profile :=
  { sso_start_url := some "https://x.awsapps.com/start", sso_region := some "us-east-1",
    sso_role_name := some "DevRole" }

/-- An environment where `dev` is an SSO profile, the SSO cache holds
tokens A, B, C, and the token exchange answers token B's request. -/
def envSso : Env :=
  { envBase with
      profiles := fun p => if p = "dev" then some ssoProfile else none
    , ssoCacheDirExists := true
    , ssoTokenFiles := [tokA, tokB, tokC]
    , getRoleCredentials := fun region role acct tok =>
        if region = some "us-east-1" && role = some "DevRole" &&
            acct = "111111111111" && tok = some "tokenB" then
          .ok { accessKeyId := some "SSOAK", secretAccessKey := some "SSOSK",
                sessionToken := some "SSOST" }
        else .error "unexpected request" }

/-- The non-SSO profile used by the concrete ini environment. -/
def iniProfile : Profile :=
  { sso_start_url := none, sso_region := none, sso_role_name := none }

/-- An environment where `dev` is a plain named profile and the shared-ini
acquisition succeeds with credentials expiring at instant 4000. -/
def envIni : Env :=
  { envBase with
      profiles := fun p => if p = "dev" then some iniProfile else none
    , iniResolve := fun p =>
        if p = "dev" then
          .ok { accessKeyId := "AKIAINI", secretAccessKey := "SECRETINI",
                sessionToken := "TOKENINI", expireTime := 4000 }
        else .error "credential acquisition failed" }

/-! Helper lemmas about the control flow, shared by the claim theorems. -/

/-- A valid cached record short-circuits the whole resolution. -/
theorem resolveWithProfile_hit (env : Env) (p t : String) (entry : CacheEntry)
    (hc : env.cache p = some entry) (hv : cacheEntryValid env.now entry = true) :
    resolveWithProfile env p t =
      { result := .ok (credentialsOfEntry entry), cache := env.cache, effects := noEffects } := by
  unfold resolveWithProfile
  rw [hc]
  simp [hv]

/-- Without a valid cached record the call falls through to `resolveFull`. -/
theorem resolveWithProfile_miss (env : Env) (p t : String)
    (h : ∀ entry, env.cache p = some entry → cacheEntryValid env.now entry = false) :
    resolveWithProfile env p t = resolveFull env p t := by
  unfold resolveWithProfile
  cases hc : env.cache p with
  | none => rfl
  | some cached => simp [h cached hc]

/-- The SSO branch never writes the cache. -/
theorem resolveSsoFlow_cache (env : Env) (prof : Profile) (t : String) :
    (resolveSsoFlow env prof t).cache = env.cache := by
  unfold resolveSsoFlow
  cases hf : findValidToken env.ssoCacheDirExists env.ssoTokenFiles
      prof.sso_start_url prof.sso_region env.now (prof.sso_start_url.getD "undefined") with
  | error e => rfl
  | ok token =>
      dsimp only
      cases hg : env.getRoleCredentials prof.sso_region prof.sso_role_name t token.accessToken with
      | error m => rfl
      | ok rc => rfl

/-- The SSO branch reads the profile store and never runs the ini provider. -/
theorem resolveSsoFlow_effects (env : Env) (prof : Profile) (t : String) :
    (resolveSsoFlow env prof t).effects.profileStoreRead = true ∧
    (resolveSsoFlow env prof t).effects.iniResolveInvoked = false := by
  unfold resolveSsoFlow
  cases hf : findValidToken env.ssoCacheDirExists env.ssoTokenFiles
      prof.sso_start_url prof.sso_region env.now (prof.sso_start_url.getD "undefined") with
  | error e => exact ⟨rfl, rfl⟩
  | ok token =>
      dsimp only
      cases hg : env.getRoleCredentials prof.sso_region prof.sso_role_name t token.accessToken with
      | error m => exact ⟨rfl, rfl⟩
      | ok rc => exact ⟨rfl, rfl⟩

/-- Every path of the full resolution reads the named-profile store. -/
theorem resolveFull_reads_store (env : Env) (p t : String) :
    (resolveFull env p t).effects.profileStoreRead = true := by
  unfold resolveFull
  cases hp : env.profiles p with
  | none => rfl
  | some prof =>
      by_cases hs : strTruthy prof.sso_start_url
      · simp only [hs, if_true]
        exact (resolveSsoFlow_effects env prof t).1
      · simp only [hs, if_false]
        unfold resolveIniFlow
        cases hi : env.iniResolve p with
        | error m => rfl
        | ok r => rfl

/-- What a successful ini acquisition does: the four field writes
compose into one fully-populated record under the profile's key. -/
theorem resolveIniFlow_ok (env : Env) (p : String) (r : IniResult)
    (h : env.iniResolve p = .ok r) :
    resolveIniFlow env p =
      { result := .ok { accessKeyId := some r.accessKeyId,
                        secretAccessKey := some r.secretAccessKey,
                        sessionToken := some r.sessionToken }
      , cache := fun q =>
          if q = p then
            some { accessKeyId := some r.accessKeyId, secretAccessKey := some r.secretAccessKey,
                   sessionToken := some r.sessionToken, expireTime := some r.expireTime }
          else env.cache q
      , effects := { profileStoreRead := true, ssoNetworkCall := false, iniResolveInvoked := true } } := by
  unfold resolveIniFlow
  rw [h]
  refine congrArg (Outcome.mk _ · _) ?_
  funext q
  by_cases hq : q = p <;> simp [cacheSetField, hq]

/-- A failed ini acquisition leaves the cache untouched. -/
theorem resolveIniFlow_error (env : Env) (p : String) (m : String)
    (h : env.iniResolve p = .error m) :
    resolveIniFlow env p =
      { result := .error (.iniAcquisition m), cache := env.cache,
        effects := { profileStoreRead := true, ssoNetworkCall := false, iniResolveInvoked := true } } := by
  unfold resolveIniFlow
  rw [h]

/-- Every resolution either leaves the cache function untouched or is a
successful pass through the ini branch. -/
theorem resolveWithProfile_cache_or_ini (env : Env) (p t : String) :
    (resolveWithProfile env p t).cache = env.cache ∨
    (∃ r : IniResult, env.iniResolve p = .ok r ∧
      resolveWithProfile env p t = resolveIniFlow env p) := by
  unfold resolveWithProfile
  have hfull : (resolveFull env p t).cache = env.cache ∨
      (∃ r : IniResult, env.iniResolve p = .ok r ∧
        resolveFull env p t = resolveIniFlow env p) := by
    unfold resolveFull
    cases hp : env.profiles p with
    | none => exact Or.inl rfl
    | some prof =>
        by_cases hs : strTruthy prof.sso_start_url
        · simp only [hs, if_true]
          exact Or.inl (resolveSsoFlow_cache env prof t)
        · simp only [hs, if_false]
          cases hi : env.iniResolve p with
          | error m => exact Or.inl (congrArg Outcome.cache (resolveIniFlow_error env p m hi))
          | ok r => exact Or.inr ⟨r, rfl, rfl⟩
  cases hc : env.cache p with
  | none => exact hfull
  | some cached =>
      by_cases hv : cacheEntryValid env.now cached
      · simp [hv]
      · simp only [hv, if_false]
        exact hfull

/-! Claim theorems. -/

/-- C1: for every profile name `p` with a cached record whose expiry is
strictly in the future, `resolveWithProfile` returns the cached access
key id, secret key and session token directly — the named-profile store
is not read, the MFA prompt / ini provider is not invoked, no network
call is made, and the cache is unchanged. -/
theorem C1_cache_hit_returns_cached (env : Env) (p t : String) (entry : CacheEntry) (e : Int)
    (hc : env.cache p = some entry) (he : entry.expireTime = some e) (hlt : env.now < e) :
    resolveWithProfile env p t =
      { result := .ok (credentialsOfEntry entry), cache := env.cache, effects := noEffects } := by
  apply resolveWithProfile_hit env p t entry hc
  simp [cacheEntryValid, he, hlt]

/-- C1 witness: a concrete environment whose cache holds a valid record
for `dev` resolves to the cached values with no collaborator touched. -/
theorem C1_cache_hit_returns_cached_witness :
    resolveWithProfile envCached "dev" "111111111111" =
      { result := .ok (credentialsOfEntry entryFresh), cache := envCached.cache,
        effects := noEffects } :=
  C1_cache_hit_returns_cached envCached "dev" "111111111111" entryFresh 1000
    (by decide) (by decide) (by decide)

/-- C5: cache validity is the strict comparison `now < expiry`: when
the current instant is strictly before the expiry the cached values are
returned untouched, and when it equals or exceeds the expiry the record
counts as expired and the full resolution (which starts by reading the
named-profile store) runs instead. -/
theorem C5_cache_validity_strict (env : Env) (p t : String) (entry : CacheEntry) (e : Int)
    (hc : env.cache p = some entry) (he : entry.expireTime = some e) :
    (env.now < e →
      resolveWithProfile env p t =
        { result := .ok (credentialsOfEntry entry), cache := env.cache, effects := noEffects }) ∧
    (e ≤ env.now →
      resolveWithProfile env p t = resolveFull env p t ∧
      (resolveWithProfile env p t).effects.profileStoreRead = true) := by
  constructor
  · intro hlt
    apply resolveWithProfile_hit env p t entry hc
    simp [cacheEntryValid, he, hlt]
  · intro hge
    have hmiss : ∀ entry', env.cache p = some entry' →
        cacheEntryValid env.now entry' = false := by
      intro entry' hc'
      rw [hc] at hc'
      cases hc'
      simp [cacheEntryValid, he, not_lt.mpr hge]
    have h := resolveWithProfile_miss env p t hmiss
    exact ⟨h, h ▸ resolveFull_reads_store env p t⟩

/-- C5 witness: at the boundary instant `now = expiry` the record counts
as expired and the profile store is consulted (here: the profile is
missing, so nothing is returned from the cache). -/
theorem C5_cache_validity_strict_witness :
    ({ envCached with now := 1000 }.now < 1000 →
      resolveWithProfile { envCached with now := 1000 } "dev" "111111111111" =
        { result := .ok (credentialsOfEntry entryFresh),
          cache := { envCached with now := 1000 }.cache, effects := noEffects }) ∧
    ((1000 : Int) ≤ { envCached with now := 1000 }.now →
      resolveWithProfile { envCached with now := 1000 } "dev" "111111111111" =
        resolveFull { envCached with now := 1000 } "dev" "111111111111" ∧
      (resolveWithProfile { envCached with now := 1000 } "dev" "111111111111").effects.profileStoreRead
        = true) :=
  C5_cache_validity_strict { envCached with now := 1000 } "dev" "111111111111" entryFresh 1000
    (by decide) (by decide)

/-- C7: a profile name with no entry in the named-profile store and no
valid cached record fails with the profile-not-found error; the failure
happens with no network call, no ini/MFA invocation and no cache
write. -/
theorem C7_profile_not_found_early (env : Env) (p t : String)
    (hmiss : ∀ entry, env.cache p = some entry → cacheEntryValid env.now entry = false)
    (hprof : env.profiles p = none) :
    resolveWithProfile env p t =
      { result := .error (.profileNotFound p), cache := env.cache,
        effects := { profileStoreRead := true, ssoNetworkCall := false,
                     iniResolveInvoked := false } } := by
  rw [resolveWithProfile_miss env p t hmiss]
  unfold resolveFull
  rw [hprof]

/-- C7 witness: the empty environment fails to resolve `dev` with the
profile-not-found error and leaves everything untouched. -/
theorem C7_profile_not_found_early_witness :
    resolveWithProfile envBase "dev" "111111111111" =
      { result := .error (.profileNotFound "dev"), cache := envBase.cache,
        effects := { profileStoreRead := true, ssoNetworkCall := false,
                     iniResolveInvoked := false } } :=
  C7_profile_not_found_early envBase "dev" "111111111111"
    (by intro entry h; cases h) rfl

/-- C10 (implicit): the cache check precedes the named-profile-store
lookup — a profile with a valid cached record resolves to the cached
values even when the store has no entry for it, and the
profile-not-found error can only arise when the cache has no valid
record for the profile. -/
theorem C10_cache_check_precedes_store_lookup (env : Env) (p t : String) :
    (∀ entry e, env.cache p = some entry → entry.expireTime = some e → env.now < e →
      env.profiles p = none →
      (resolveWithProfile env p t).result = .ok (credentialsOfEntry entry)) ∧
    ((resolveWithProfile env p t).result = .error (.profileNotFound p) →
      ∀ entry, env.cache p = some entry → cacheEntryValid env.now entry = false) := by
  constructor
  · intro entry e hc he hlt _
    have hv : cacheEntryValid env.now entry = true := by
      simp [cacheEntryValid, he, hlt]
    rw [resolveWithProfile_hit env p t entry hc hv]
  · intro herr entry hc
    by_contra hv
    rw [Bool.not_eq_false] at hv
    rw [resolveWithProfile_hit env p t entry hc hv] at herr
    cases herr

/-- C10 witness: an environment whose profile store is empty but whose
cache holds a valid record for `dev` still resolves `dev` from the
cache. -/
theorem C10_cache_check_precedes_store_lookup_witness :
    (resolveWithProfile envCached "dev" "111111111111").result =
      .ok (credentialsOfEntry entryFresh) :=
  (C10_cache_check_precedes_store_lookup envCached "dev" "111111111111").1 entryFresh 1000
    (by decide) (by decide) (by decide) rfl

/-- C2: the token locator returns the first enumerated token whose
start URL and region equal the request and whose expiry is strictly in
the future (every earlier candidate fails that predicate); in
particular, among A (matching, expired), B (matching, future expiry)
and C (wrong URL, future expiry) a request for the matching URL and
region at instant 100 selects B, which differs from A and from C. -/
theorem C2_sso_token_selection :
    (∀ (files : List SsoToken) (u r : Option String) (n : Int) (s : String) (tk : SsoToken),
      findValidToken true files u r n s = .ok tk →
      tokenMatches u r n tk = true ∧
      ∃ l₁ l₂, files = l₁ ++ tk :: l₂ ∧ ∀ x ∈ l₁, tokenMatches u r n x = false) ∧
    findValidToken true [tokA, tokB, tokC] (some "https://x.awsapps.com/start")
      (some "us-east-1") 100 "https://x.awsapps.com/start" = .ok tokB ∧
    tokB ≠ tokA ∧ tokB ≠ tokC := by
  refine ⟨?_, by decide, by decide, by decide⟩
  intro files u r n s tk h
  unfold findValidToken at h
  simp only [Bool.not_true, if_false, ite_false] at h
  cases hf : files.find? (tokenMatches u r n) with
  | none => rw [hf] at h; cases h
  | some t0 =>
      rw [hf] at h
      cases h
      obtain ⟨hp, l₁, l₂, hsplit, hprev⟩ := List.find?_eq_some.mp hf
      exact ⟨hp, l₁, l₂, hsplit, fun x hx => by simpa using hprev x hx⟩

/-- C2 witness: the general first-match property instantiated at the
A, B, C candidate list. -/
theorem C2_sso_token_selection_witness :
    tokenMatches (some "https://x.awsapps.com/start") (some "us-east-1") 100 tokB = true ∧
    ∃ l₁ l₂, [tokA, tokB, tokC] = l₁ ++ tokB :: l₂ ∧
      ∀ x ∈ l₁, tokenMatches (some "https://x.awsapps.com/start") (some "us-east-1") 100 x
        = false :=
  C2_sso_token_selection.1 [tokA, tokB, tokC] (some "https://x.awsapps.com/start")
    (some "us-east-1") 100 "https://x.awsapps.com/start" tokB (by decide)

/-- C6: with an SSO profile and no usable cached credential, a missing
token-cache directory fails with the cache-missing error and a present
directory with no matching valid token fails with the not-logged-in
error; both failures make no network call and no ini/MFA invocation,
and the two error values (and their messages, at the witness URL) are
distinct. -/
theorem C6_sso_error_kinds (env : Env) (p t : String) (prof : Profile) (url : String)
    (hmiss : ∀ entry, env.cache p = some entry → cacheEntryValid env.now entry = false)
    (hprof : env.profiles p = some prof)
    (hurl : prof.sso_start_url = some url) (hne : url ≠ "") :
    (env.ssoCacheDirExists = false →
      resolveWithProfile env p t =
        { result := .error .ssoCacheMissing, cache := env.cache,
          effects := { profileStoreRead := true, ssoNetworkCall := false,
                       iniResolveInvoked := false } }) ∧
    (env.ssoCacheDirExists = true →
      env.ssoTokenFiles.find? (tokenMatches prof.sso_start_url prof.sso_region env.now) = none →
      resolveWithProfile env p t =
        { result := .error (.ssoNotLoggedIn url), cache := env.cache,
          effects := { profileStoreRead := true, ssoNetworkCall := false,
                       iniResolveInvoked := false } }) ∧
    ResolveError.ssoCacheMissing ≠ ResolveError.ssoNotLoggedIn url := by
  have htruthy : strTruthy prof.sso_start_url = true := by
    simp [strTruthy, hurl, hne]
  have hdispatch : resolveWithProfile env p t = resolveSsoFlow env prof t := by
    rw [resolveWithProfile_miss env p t hmiss]
    unfold resolveFull
    rw [hprof]
    simp [htruthy]
  refine ⟨?_, ?_, by intro h; cases h⟩
  · intro hdir
    rw [hdispatch]
    unfold resolveSsoFlow findValidToken
    rw [hdir]
    rfl
  · intro hdir hfind
    rw [hdispatch]
    unfold resolveSsoFlow findValidToken
    rw [hdir, hfind]
    simp [hurl]

/-- C6 witness: the concrete SSO environment, once with the cache
directory removed and once with only non-matching tokens, produces the
two distinct errors. -/
theorem C6_sso_error_kinds_witness :
    resolveWithProfile { envSso with ssoCacheDirExists := false } "dev" "111111111111" =
      { result := .error .ssoCacheMissing,
        cache := { envSso with ssoCacheDirExists := false }.cache,
        effects := { profileStoreRead := true, ssoNetworkCall := false,
                     iniResolveInvoked := false } } :=
  (C6_sso_error_kinds { envSso with ssoCacheDirExists := false } "dev" "111111111111"
    ssoProfile "https://x.awsapps.com/start"
    (by intro entry h; cases h) (by decide) rfl (by decide)).1 rfl

/-- C3 counterexample: in a concrete environment the SSO token exchange
succeeds and the resolver returns the exchanged credentials, yet the
credential cache still has no record for the originating profile — the
claimed cache write does not happen in the SSO flow. -/
theorem C3_sso_flow_does_not_cache_counterexample :
    (resolveWithProfile envSso "dev" "111111111111").result =
      .ok { accessKeyId := some "SSOAK", secretAccessKey := some "SSOSK",
            sessionToken := some "SSOST" } ∧
    (resolveWithProfile envSso "dev" "111111111111").effects.ssoNetworkCall = true ∧
    (resolveWithProfile envSso "dev" "111111111111").cache "dev" = none := by
  refine ⟨by decide, by decide, by decide⟩

/-- C3 amended: in the SSO flow a successful token exchange returns the
exchanged credentials directly and leaves the credential cache
completely unchanged — only the non-SSO profile flow writes the
cache. -/
theorem C3_sso_success_leaves_cache_unchanged (env : Env) (p t : String) (prof : Profile)
    (token : SsoToken) (rc : RoleCredentials)
    (hmiss : ∀ entry, env.cache p = some entry → cacheEntryValid env.now entry = false)
    (hprof : env.profiles p = some prof)
    (hsso : strTruthy prof.sso_start_url = true)
    (hdir : env.ssoCacheDirExists = true)
    (hfind : env.ssoTokenFiles.find? (tokenMatches prof.sso_start_url prof.sso_region env.now)
      = some token)
    (hnet : env.getRoleCredentials prof.sso_region prof.sso_role_name t token.accessToken
      = .ok rc) :
    resolveWithProfile env p t =
      { result := .ok { accessKeyId := rc.accessKeyId, secretAccessKey := rc.secretAccessKey,
                        sessionToken := rc.sessionToken }
      , cache := env.cache
      , effects := { profileStoreRead := true, ssoNetworkCall := true,
                     iniResolveInvoked := false } } := by
  rw [resolveWithProfile_miss env p t hmiss]
  unfold resolveFull
  rw [hprof]
  simp only [hsso, if_true]
  unfold resolveSsoFlow findValidToken
  rw [hdir, hfind]
  simp [hnet]

/-- C3 amended witness: the concrete SSO environment resolves through a
successful exchange with the cache left as it was. -/
theorem C3_sso_success_leaves_cache_unchanged_witness :
    resolveWithProfile envSso "dev" "111111111111" =
      { result := .ok { accessKeyId := some "SSOAK", secretAccessKey := some "SSOSK",
                        sessionToken := some "SSOST" }
      , cache := envSso.cache
      , effects := { profileStoreRead := true, ssoNetworkCall := true,
                     iniResolveInvoked := false } } :=
  C3_sso_success_leaves_cache_unchanged envSso "dev" "111111111111" ssoProfile tokB
    { accessKeyId := some "SSOAK", secretAccessKey := some "SSOSK",
      sessionToken := some "SSOST" }
    (by intro entry h; cases h) (by decide) (by decide) rfl (by decide) (by decide)

/-- C4: the credential-cache write is all-or-nothing: no resolution
touches another profile's entry; the entry of the resolved profile is
either left exactly as it was or replaced by a record with all four
fields set together to the freshly resolved values; and on any failure
the whole cache is unchanged. -/
theorem C4_cache_write_all_or_nothing (env : Env) (p t : String) :
    (∀ q, q ≠ p → (resolveWithProfile env p t).cache q = env.cache q) ∧
    ((resolveWithProfile env p t).cache p = env.cache p ∨
      (∃ r : IniResult, env.iniResolve p = .ok r ∧
        (resolveWithProfile env p t).cache p =
          some { accessKeyId := some r.accessKeyId, secretAccessKey := some r.secretAccessKey,
                 sessionToken := some r.sessionToken, expireTime := some r.expireTime } ∧
        (resolveWithProfile env p t).result =
          .ok { accessKeyId := some r.accessKeyId, secretAccessKey := some r.secretAccessKey,
                sessionToken := some r.sessionToken })) ∧
    (∀ err, (resolveWithProfile env p t).result = .error err →
      ∀ q, (resolveWithProfile env p t).cache q = env.cache q) := by
  rcases resolveWithProfile_cache_or_ini env p t with hsame | ⟨r, hr, heq⟩
  · exact ⟨fun q _ => by rw [hsame], Or.inl (by rw [hsame]), fun err _ q => by rw [hsame]⟩
  · rw [heq, resolveIniFlow_ok env p r hr]
    refine ⟨fun q hq => by simp [hq], Or.inr ⟨r, hr, by simp, rfl⟩, ?_⟩
    intro err herr
    exact absurd herr (by simp)

/-- C4 witness: in the concrete ini environment, resolving `dev` leaves
the entry of the unrelated profile `prod` untouched. -/
theorem C4_cache_write_all_or_nothing_witness :
    (resolveWithProfile envIni "dev" "111111111111").cache "prod" = envIni.cache "prod" :=
  (C4_cache_write_all_or_nothing envIni "dev" "111111111111").1 "prod" (by decide)

/-- C8: for a configured identity whose strategy descriptor has no
truthy `profile` field, `getProvider` produces no value at all: no
strategy resolver is invoked and no credential (and no error) is
returned. -/
theorem C8_no_strategy_yields_no_value (env : Env)
    (crossAccountConfig : String → Option StrategyConfig) (accountId : String)
    (cfg : StrategyConfig)
    (hcfg : crossAccountConfig accountId = some cfg)
    (hnone : strTruthy cfg.profile = false) :
    getProvider env crossAccountConfig accountId = .noValue := by
  unfold getProvider
  rw [hcfg]
  simp [hnone]

/-- C8 witness: an account configured with an empty strategy descriptor
gets the silent missing return. -/
theorem C8_no_strategy_yields_no_value_witness :
    getProvider envBase
      (fun a => if a = "222222222222" then some { profile := none } else none)
      "222222222222" = .noValue :=
  C8_no_strategy_yields_no_value envBase
    (fun a => if a = "222222222222" then some { profile := none } else none)
    "222222222222" { profile := none } (by decide) rfl

/-- C9: round-trip — when a resolution for `p` succeeds and a second
resolution for `p` runs no earlier than the first and strictly before
the expiry of the record then cached for `p`, the second call returns
exactly the same credential values as the first. -/
theorem C9_round_trip (env : Env) (p t : String) (c1 : Credentials) (now2 : Int)
    (entry : CacheEntry) (e : Int)
    (h1 : (resolveWithProfile env p t).result = .ok c1)
    (hcache : (resolveWithProfile env p t).cache p = some entry)
    (he : entry.expireTime = some e)
    (hmono : env.now ≤ now2)
    (hlt : now2 < e) :
    (resolveWithProfile
      { env with cache := (resolveWithProfile env p t).cache, now := now2 } p t).result
      = .ok c1 := by
  have hhit := resolveWithProfile_hit
    { env with cache := (resolveWithProfile env p t).cache, now := now2 } p t entry
    hcache (by simp [cacheEntryValid, he, hlt])
  rw [hhit]
  rcases resolveWithProfile_cache_or_ini env p t with hsame | ⟨r, hr, heq⟩
  · rw [hsame] at hcache
    by_cases hv : cacheEntryValid env.now entry
    · rw [resolveWithProfile_hit env p t entry hcache hv] at h1
      exact h1
    · exfalso
      have h2 : ¬ (env.now < e) := by
        intro hx
        exact hv (by simp [cacheEntryValid, he, hx])
      omega
  · rw [heq, resolveIniFlow_ok env p r hr] at h1 hcache
    dsimp only at h1 hcache ⊢
    rw [if_pos rfl] at hcache
    injection hcache with hcache
    rw [← hcache]
    exact h1

/-- C9 witness: the concrete ini environment resolved at instant 100
and re-resolved at instant 2000 (before the cached expiry 4000)
returns identical credential values. -/
theorem C9_round_trip_witness :
    (resolveWithProfile
      { envIni with
          cache := (resolveWithProfile envIni "dev" "111111111111").cache
          now := 2000 } "dev" "111111111111").result =
      .ok { accessKeyId := some "AKIAINI", secretAccessKey := some "SECRETINI",
            sessionToken := some "TOKENINI" } :=
  C9_round_trip envIni "dev" "111111111111"
    { accessKeyId := some "AKIAINI", secretAccessKey := some "SECRETINI",
      sessionToken := some "TOKENINI" } 2000
    { accessKeyId := some "AKIAINI", secretAccessKey := some "SECRETINI",
      sessionToken := some "TOKENINI", expireTime := some 4000 } 4000
    (by decide) (by decide) (by decide) (by decide) (by decide)

end CrossAccountPlugin
